import Mathlib

/-!
Verification development for the borrowing-optimizer repository.

The repository contains two variants of the same pipeline:
* `src/app.py` — a React/JavaScript single-file frontend (helpers `pickCol`,
  `coerceNumber`, `coerceDate`, `normaliseType`, `daysToBucket`, `sortRows`,
  and the `processed` memo of `BorrowingOptimiserUI`);
* `src/apptest.py` — a Streamlit/pandas app (helpers `smart_pick_col`,
  `coerce_date`, `normalise_types`, `_to_number`, `tenor_to_alm_bucket_name`,
  the derivation block, `df_sorted` and the greedy packing loop).

Definitions below are shallow embeddings of those functions.  Machine floats
are modelled as `Option ℚ` (`none` = NaN, since every NaN in this pipeline
arises from a failed parse and the code only ever branches on NaN-ness),
date-time values as `ℤ` milliseconds since the epoch, and JS/Python string
operations as executable functions on `List Char`.
-/

namespace BorrowingOptimizer

/-! ## Character-list string utilities

Executable models of the JS/Python string operations used by the sources.
They are written by structural recursion (with an explicit fuel argument
where the step size exceeds one character) so that every theorem below can
be checked by kernel evaluation.
-/

/-- Replace every non-overlapping occurrence of `pat` (assumed non-empty, as
are all patterns used by the sources) by `repl`, scanning left to right —
the semantics of Python `str.replace` and of a global JS regex replace.
`fuel` bounds the recursion; callers pass the string length. -/
def replaceAux (pat repl : List Char) : Nat → List Char → List Char
  | _, [] => []
  | 0, s => s
  | fuel + 1, c :: rest =>
    if pat.isPrefixOf (c :: rest) then
      repl ++ replaceAux pat repl fuel ((c :: rest).drop pat.length)
    else
      c :: replaceAux pat repl fuel rest

/-- Python `s.replace(pat, repl)` / JS global replace on strings. -/
def strReplace (s pat repl : String) : String :=
  ⟨replaceAux pat.toList repl.toList s.toList.length s.toList⟩

/-- Lower-casing, as used by both column resolvers. -/
def lowerS (s : String) : String := ⟨s.toList.map Char.toLower⟩

/-- Python `str.strip()` / trimming surrounding whitespace. -/
def trimChars (cs : List Char) : List Char :=
  ((cs.dropWhile Char.isWhitespace).reverse.dropWhile Char.isWhitespace).reverse

/-- String wrapper for `trimChars`. -/
def trimS (s : String) : String := ⟨trimChars s.toList⟩

/-- Substring containment (Python `in`, used by the fuzzy column match). -/
def containsSub (pat : List Char) : List Char → Bool
  | [] => pat.isEmpty
  | c :: rest => pat.isPrefixOf (c :: rest) || containsSub pat rest

/-- Split a character list on a separator character (models `str.split`). -/
def splitOnChar (sep : Char) : List Char → List (List Char)
  | [] => [[]]
  | c :: rest =>
    if c = sep then [] :: splitOnChar sep rest
    else
      match splitOnChar sep rest with
      | [] => [[c]]
      | g :: gs => (c :: g) :: gs

/-- Numeric value of a digit list (most significant first). -/
def digitsVal (cs : List Char) : ℕ :=
  cs.foldl (fun n c => 10 * n + (c.toNat - 48)) 0

/-- Parse a non-empty all-digit character list as a natural number. -/
def parseNatChars (cs : List Char) : Option ℕ :=
  if cs ≠ [] ∧ cs.all Char.isDigit then some (digitsVal cs) else none

/-- Shared decimal-literal core of JS `Number(...)` and pandas
`pd.to_numeric(...)`: an optional sign, digits with at most one decimal
point, and at least one digit overall ("1." and ".5" are accepted by both
runtimes).  Anything outside this plain decimal fragment — exponents, hex,
infinities — is modelled as unparseable, which is the NaN direction and the
only direction the pipeline distinguishes. -/
def parseDecimal (s : String) : Option ℚ :=
  let cs := s.toList
  let signBody : ℚ × List Char :=
    match cs with
    | '-' :: rest => (-1, rest)
    | '+' :: rest => (1, rest)
    | _ => (1, cs)
  match splitOnChar '.' signBody.2 with
  | [ip] =>
    if ip ≠ [] ∧ ip.all Char.isDigit then some (signBody.1 * digitsVal ip) else none
  | [ip, fp] =>
    if (ip ≠ [] ∨ fp ≠ []) ∧ ip.all Char.isDigit ∧ fp.all Char.isDigit then
      some (signBody.1 * ((digitsVal ip : ℚ) + (digitsVal fp : ℚ) / 10 ^ fp.length))
    else none
  | _ => none

/-! ## Cells and the data model -/

/-- A raw spreadsheet cell handed to the core: a string, a number, a
date-time value (milliseconds since the epoch), or blank (`null`,
`undefined`, missing, or pandas `NaN`). -/
inductive Cell where
  | str (s : String)
  | num (q : ℚ)
  | date (ms : ℤ)
  | blank
deriving DecidableEq

/-- Result of type normalization: `null`/NaN, the canonical codes, or the
original value passed through unchanged. -/
inductive TypeVal where
  | null
  | st
  | lt
  | other (c : Cell)
deriving DecidableEq

/-- A raw input row: lookup from column name to cell. -/
def RawRow : Type := String → Cell

/-! ## Field normalization — numbers -/

/-- app.py `coerceNumber`: `null`/`undefined`/`""` give NaN; otherwise the
value is stringified, every comma, whitespace character and percent sign is
deleted (`String(x).replace(/[\,\s%]/g, "")`), and the residue goes through
JS `Number`, with non-finite results mapped to NaN.  JS quirk kept: `Number`
of the empty string is `0`, so a cell that strips to nothing (for instance
whitespace only) coerces to `0`, not NaN.  Stringifying a number round-trips
it, and stringifying a date-time value never yields a numeral. -/
def coerceNumber : Cell → Option ℚ
  | Cell.blank => none
  | Cell.num q => some q
  | Cell.date _ => none
  | Cell.str s =>
    if s = "" then none
    else
      let residue : List Char :=
        s.toList.filter (fun c => ¬(c = ',' ∨ c = '%' ∨ c.isWhitespace))
      if residue = [] then some 0 else parseDecimal ⟨residue⟩

/-- apptest.py `_to_number`: stringify, delete commas and percent signs,
delete the tokens "INR", "Rs", "₹", strip surrounding whitespace; the
residues "", "-", "—" give NaN, anything else goes through
`pd.to_numeric(..., errors='coerce')`.  A pandas-NaN input stringifies to
"nan", which is likewise not a plain decimal here. -/
def _to_number (x : Cell) : Option ℚ :=
  match x with
  | Cell.blank => none
  | Cell.num q => some q
  | Cell.date _ => none
  | Cell.str s0 =>
    let s1 := strReplace (strReplace s0 "," "") "%" ""
    let s2 := strReplace (strReplace (strReplace s1 "INR" "") "Rs" "") "₹" ""
    let s3 := trimS s2
    if s3 = "" ∨ s3 = "-" ∨ s3 = "—" then none else parseDecimal s3

/-! ## Field normalization — dates

Date-time values are `ℤ` milliseconds since the epoch.  The two sources call
library parsers (`new Date(string)` in app.py, `dateutil.parser.parse(str,
dayfirst=True, fuzzy=True)` in apptest.py); those library calls are modelled
on the numeric `d/m/y` slash-separated fragment (four-digit year), which is
the fragment the specification's day-first/noise-tolerance language is
about.  Strings outside the fragment are modelled as unparseable. -/

/-- Civil date to days since 1970-01-01 (proleptic Gregorian).  Divisions
are truncating (`Int.tdiv`), matching the integer arithmetic of the
underlying date libraries; operands are arranged to be non-negative. -/
def daysFromCivil (y m d : ℤ) : ℤ :=
  let y' := if m ≤ 2 then y - 1 else y
  let era := Int.tdiv (if 0 ≤ y' then y' else y' - 399) 400
  let yoe := y' - era * 400
  let mp := Int.emod (m + 9) 12
  let doy := Int.tdiv (153 * mp + 2) 5 + d - 1
  let doe := yoe * 365 + Int.tdiv yoe 4 - Int.tdiv yoe 100 + doy
  era * 146097 + doe - 719468

/-- Milliseconds per day. -/
def dayMs : ℤ := 86400000

/-- Midnight of a civil date as epoch milliseconds. -/
def civilMs (y m d : ℤ) : ℤ := daysFromCivil y m d * dayMs

/-- One slash-separated token as a `dateutil`-style day-first date:
`a/b/y` reads `a` as the day when `a` can be a day and `b` a month, and
swaps the two (dateutil's fallback) when `a` cannot be a day-first day but
the swapped reading is valid. -/
def parseDMY (tok : List Char) : Option (ℤ × ℤ × ℤ) :=
  match splitOnChar '/' tok with
  | [a, b, c] =>
    match parseNatChars a, parseNatChars b, parseNatChars c with
    | some x, some y, some z =>
      if 1 ≤ x ∧ x ≤ 31 ∧ 1 ≤ y ∧ y ≤ 12 then some ((z : ℤ), (y : ℤ), (x : ℤ))
      else if 1 ≤ y ∧ y ≤ 31 ∧ 1 ≤ x ∧ x ≤ 12 then some ((z : ℤ), (x : ℤ), (y : ℤ))
      else none
    | _, _, _ => none
  | _ => none

/-- Model of `dateutil.parser.parse(s, dayfirst=True, fuzzy=True)` on the
slash fragment: split on whitespace, ignore tokens that are not dates
(fuzzy free-text tolerance), and take the first date-shaped token. -/
def pyParseDateString (s : String) : Option ℤ :=
  ((((splitOnChar ' ' s.toList).filter (· ≠ [])).filterMap parseDMY).head?).map
    (fun ymd => civilMs ymd.1 ymd.2.1 ymd.2.2)

/-- Model of JS `new Date(string)` on the slash fragment: the whole string
must be `m/d/y`, month first, with no swapping and no surrounding noise;
anything else is an Invalid Date. -/
def jsParseDate (s : String) : Option ℤ :=
  match splitOnChar '/' s.toList with
  | [a, b, c] =>
    match parseNatChars a, parseNatChars b, parseNatChars c with
    | some m, some d, some y =>
      if 1 ≤ m ∧ m ≤ 12 ∧ 1 ≤ d ∧ d ≤ 31 then some (civilMs (y : ℤ) (m : ℤ) (d : ℤ))
      else none
    | _, _, _ => none
  | _ => none

/-- Truncation toward zero of a rational, as JS does when a number becomes a
Date time value. -/
def ratTrunc (q : ℚ) : ℤ := Int.tdiv q.num (q.den : ℤ)

/-- app.py `coerceDate`: falsy inputs (`null`, `undefined`, `""`, the
number `0`, `NaN`) give `null`; a Date value passes through (`new Date(x)`
keeps its time value); a non-zero number becomes that time value; a string
goes through `new Date(string)` with Invalid Dates mapped to `null`. -/
def coerceDate : Cell → Option ℤ
  | Cell.blank => none
  | Cell.date ms => some ms
  | Cell.num q => if q = 0 then none else some (ratTrunc q)
  | Cell.str s => if s = "" then none else jsParseDate s

/-- apptest.py `coerce_date`: pandas-missing gives `NaT`; a date/datetime
value passes through; anything else is stringified and parsed with
`dateutil` (day-first, fuzzy), parse failures giving `NaT`.  A numeric cell
is stringified to a decimal numeral, which is outside the modelled slash
fragment. -/
def coerce_date : Cell → Option ℤ
  | Cell.blank => none
  | Cell.date ms => some ms
  | Cell.num _ => none
  | Cell.str s => pyParseDateString s

/-! ## Field normalization — loan type -/

/-- app.py `normaliseType`: falsy values other than the number `0` give
`null`; otherwise the stringified, trimmed, lower-cased value is matched
against the short/long vocabularies, anything else passing through
unchanged.  (A number never matches either vocabulary.) -/
def normaliseType (v : Cell) : TypeVal :=
  match v with
  | Cell.blank => TypeVal.null
  | Cell.str s =>
    if s = "" then TypeVal.null
    else
      let t := lowerS (trimS s)
      if t = "st" ∨ t = "short" ∨ t = "short-term" ∨ t = "short term" then TypeVal.st
      else if t = "lt" ∨ t = "long" ∨ t = "long-term" ∨ t = "long term" then TypeVal.lt
      else TypeVal.other v
  | Cell.num q => TypeVal.other (Cell.num q)
  | Cell.date ms => TypeVal.other (Cell.date ms)

/-- apptest.py `normalise_types`: pandas-missing gives NaN; otherwise the
same trimmed lower-case vocabulary match, with pass-through.  (A blank
string is not pandas-missing, so unlike app.py it passes through.) -/
def normalise_types (v : Cell) : TypeVal :=
  match v with
  | Cell.blank => TypeVal.null
  | _ =>
    let t := lowerS (trimS (match v with
      | Cell.str s => s
      | _ => ""))
    match v with
    | Cell.str _ =>
      if t = "st" ∨ t = "short" ∨ t = "short-term" ∨ t = "short term" then TypeVal.st
      else if t = "lt" ∨ t = "long" ∨ t = "long-term" ∨ t = "long term" then TypeVal.lt
      else TypeVal.other v
    | _ => TypeVal.other v

/-! ## Schema resolver -/

/-- Candidate header lists; identical in both variants. -/
def DATE_COL_CANDIDATES : List String :=
  ["Date of availability", "Availability Date", "Available On", "Availability", "Date"]

/-- Rate-of-interest header candidates. -/
def ROI_COL_CANDIDATES : List String := ["ROI", "Interest", "Rate", "Rate of Interest"]

/-- Amount header candidates. -/
def AMOUNT_COL_CANDIDATES : List String :=
  ["Amount to be drawn", "Amount", "Draw Amount", "Available Amount", "Amt"]

/-- Tenor header candidates. -/
def TENOR_COL_CANDIDATES : List String := ["Tenor", "Tenure", "Term", "Days"]

/-- Type header candidates. -/
def TYPE_COL_CANDIDATES : List String := ["Type", "Loan Type"]

/-- The lower-case lookup table both resolvers build (`{c.lower(): c}` /
`Object.fromEntries`): keys appear at their first occurrence, a later
column with the same lower-casing overwrites the stored original name. -/
def buildLowerMap (cols : List String) : List (String × String) :=
  cols.foldl
    (fun acc c =>
      let k := lowerS c
      if acc.any (fun p => p.1 = k) then
        acc.map (fun p => if p.1 = k then (k, c) else p)
      else acc ++ [(k, c)])
    []

/-- apptest.py `smart_pick_col`: candidates outer, columns inner; first a
case-insensitive exact pass, then a contains pass (`cand.lower() in c`). -/
def smart_pick_col (cols : List String) (candidates : List String) : Option String :=
  let lower := buildLowerMap cols
  match candidates.findSome? (fun cand =>
      (lower.find? (fun p => p.1 = lowerS cand)).map (fun p => p.2)) with
  | some c => some c
  | none =>
    candidates.findSome? (fun cand =>
      (lower.find? (fun p => containsSub (lowerS cand).toList p.1.toList)).map
        (fun p => p.2))

/-- app.py `pickCol`: same two passes; the exact pass tests the looked-up
original name for truthiness (`if (exact)`), so a column whose original
name is the empty string is skipped there. -/
def pickCol (cols : List String) (candidates : List String) : Option String :=
  let lower := buildLowerMap cols
  match candidates.findSome? (fun cand =>
      match lower.find? (fun p => p.1 = lowerS cand) with
      | some p => if p.2 = "" then none else some p.2
      | none => none) with
  | some c => some c
  | none =>
    candidates.findSome? (fun cand =>
      (lower.find? (fun p => containsSub (lowerS cand).toList p.1.toList)).map
        (fun p => p.2))

/-! ## ALM buckets -/

/-- The 16 ALM buckets `(label, min, max)` in days; identical in both
variants. -/
def ALM_BUCKETS : List (String × ℤ × ℤ) :=
  [("0 Days to 7 Days", 0, 7),
   ("8 Days to 14 Days", 8, 14),
   ("15 Days to 30 Days", 15, 30),
   ("Over 1 Months & upto 2 Months", 31, 60),
   ("Over 2 Months & upto 6 Months", 61, 180),
   ("Over 6 Months & upto 12 Months", 181, 365),
   ("Over 1 Years & upto 3 Years", 366, 365 * 3),
   ("Over 3 Years & upto 5 Years", 365 * 3 + 1, 365 * 5),
   ("Over 5 Years & upto 7 Years", 365 * 5 + 1, 365 * 7),
   ("Over 7 Years & upto 10 Years", 365 * 7 + 1, 365 * 10),
   ("Over 10 Years & upto 12 Years", 365 * 10 + 1, 365 * 12),
   ("Over 12 Years & upto 15 Years", 365 * 12 + 1, 365 * 15),
   ("Over 15 Years & upto 18 Years", 365 * 15 + 1, 365 * 18),
   ("Over 18 Years & upto 20 Years", 365 * 18 + 1, 365 * 20),
   ("Over 20 Years & upto 30 Years", 365 * 20 + 1, 365 * 30),
   ("Over 30 Years & upto 50 Years", 365 * 30 + 1, 365 * 50)]

/-- app.py `daysToBucket`: first bucket whose inclusive `[min, max]` range
contains the day count, `null` beyond 50 years.  (The source's
`Number.isFinite` guard cannot fire here: the effective tenor it is applied
to is always a finite number.) -/
def daysToBucket (days : ℚ) : Option String :=
  (ALM_BUCKETS.find? (fun b =>
      decide ((b.2.1 : ℚ) ≤ days) && decide (days ≤ (b.2.2 : ℚ)))).map
    (fun b => b.1)

/-- apptest.py `tenor_to_alm_bucket_name`: NaN tenor gets the neutral
"15 Days to 30 Days" default; otherwise `int(tenor_days)` (truncation) is
looked up in the buckets, and a day count beyond every bucket is clamped to
the last bucket's name. -/
def tenor_to_alm_bucket_name (tenor_days : Option ℚ) : String :=
  match tenor_days with
  | none => "15 Days to 30 Days"
  | some q =>
    let d := ratTrunc q
    match ALM_BUCKETS.find? (fun b => decide (b.2.1 ≤ d) && decide (d ≤ b.2.2)) with
    | some b => b.1
    | none => (ALM_BUCKETS.getLastD ("", 0, 0)).1

/-! ## Derivation engine -/

/-- app.py near flag (inside `sortRows`): start at 1; a finite
days-to-availability within `[0, nearWindowDays]` gives 0, a finite
negative one gives 2 (the two guards are mutually exclusive); an infinite
days-to-availability — the unknown-date marker — keeps 1. -/
def appNearFlag (nearWindowDays : ℤ) (daysToAvail : Option ℤ) : ℤ :=
  match daysToAvail with
  | none => 1
  | some d => if 0 ≤ d ∧ d ≤ nearWindowDays then 0 else if d < 0 then 2 else 1

/-- apptest.py `__near_flag` (`np.select`): first matching condition wins —
`0 ≤ days ≤ window` gives 0, `days < 0` gives 2, default 1; a NaN
days-to-availability satisfies neither comparison and falls to the
default. -/
def pyNearFlag (nearWindowDays : ℤ) (daysToAvail : Option ℤ) : ℤ :=
  match daysToAvail with
  | none => 1
  | some d => if 0 ≤ d ∧ d ≤ nearWindowDays then 0 else if d < 0 then 2 else 1

/-- app.py effective tenor (inside `sortRows`): a finite parsed tenor is
used as-is; only when the tenor is NaN does the `ST` conditional run — and
both of its branches are `90`, so the type never changes the result. -/
def appEffTenor (tenorDays : Option ℚ) (ty : TypeVal) : ℚ :=
  match tenorDays with
  | some t => t
  | none =>
    match ty with
    | TypeVal.st => 90
    | _ => 90

/-- apptest.py `__effective_tenor_days`
(`np.where(type == 'ST' or tenor is NaN, 90, tenor)`): the 90-day default
applies whenever the type is ST, even over a present numeric tenor. -/
def pyEffectiveTenorDays (ty : TypeVal) (tenorDays : Option ℚ) : ℚ :=
  match tenorDays with
  | none => 90
  | some t => if ty = TypeVal.st then 90 else t

/-- app.py bucket-mismatch lookup `(almMap && almMap[label]) || 0`: an
unbucketed row (label `null`) reads `undefined` and falls back to 0. -/
def appAlmLookup (almMap : String → ℚ) : Option String → ℚ
  | some l => almMap l
  | none => 0

/-- app.py `almOutflow = Math.max(0, (almMap && almMap[label]) || 0)`:
the signed user mismatch clamped below at 0. -/
def appAlmOutflow (almMap : String → ℚ) (label : Option String) : ℚ :=
  max 0 (appAlmLookup almMap label)

/-- app.py `almPriority = -almOutflow`. -/
def appAlmPriority (almMap : String → ℚ) (label : Option String) : ℚ :=
  -(appAlmOutflow almMap label)

/-- apptest.py `__alm_mismatch`: the bucket table value at the row's
bucket name (signed, not clamped). -/
def pyAlmMismatch (almMap : String → ℚ) (effTenor : ℚ) : ℚ :=
  almMap (tenor_to_alm_bucket_name (some effTenor))

/-- apptest.py `__alm_priority = -alm_weight * __alm_mismatch`. -/
def pyAlmPriority (almWeight : ℚ) (almMap : String → ℚ) (effTenor : ℚ) : ℚ :=
  -almWeight * pyAlmMismatch almMap effTenor

/-! ## The app.py ranked rows -/

/-- The per-row fields the app.py `processed` memo hands to `sortRows`. -/
structure AppRow where
  __date : Cell
  __roi : Option ℚ
  __amount : Option ℚ
  __tenor_days : Option ℚ
  __type : TypeVal
deriving DecidableEq

/-- An app.py row with its derived sort fields, as built by the mapping
stage of `sortRows`. -/
structure AppDerived where
  row : AppRow
  __daysToAvail : Option ℤ
  __nearFlag : ℤ
  __effTenor : ℚ
  __almPriority : ℚ
  __almBucketLabel : Option String
deriving DecidableEq

/-- The mapping stage of app.py `sortRows`: coerce the date, floor the
millisecond difference to `today` into whole days (`Infinity`, modelled as
`none`, for an uncoercible date), then derive flag, tenor and ALM score. -/
def appDeriveRow (today nearWindowDays : ℤ) (almMap : String → ℚ) (r : AppRow) :
    AppDerived :=
  let d := coerceDate r.__date
  let daysToAvail := d.map (fun ms => Int.fdiv (ms - today) dayMs)
  let tenor := appEffTenor r.__tenor_days r.__type
  let label := daysToBucket tenor
  { row := r
    __daysToAvail := daysToAvail
    __nearFlag := appNearFlag nearWindowDays daysToAvail
    __effTenor := tenor
    __almPriority := appAlmPriority almMap label
    __almBucketLabel := label }

/-- Final stage of the app.py comparator: the effective-tenor difference
(both operands always finite). -/
def appLeTenor (a b : AppDerived) : Bool :=
  decide (a.__effTenor ≤ b.__effTenor)

/-- Days-to-availability stage `(a ?? Infinity) - (b ?? Infinity)`:
`Infinity - Infinity` is NaN, which is falsy, so two unknown dates fall
through to the tenor stage; a finite value against `Infinity` gives
`-Infinity`/`Infinity`, deciding the order. -/
def appLeDays (a b : AppDerived) : Bool :=
  match a.__daysToAvail, b.__daysToAvail with
  | some x, some y => if x ≠ y then decide (x < y) else appLeTenor a b
  | some _, none => true
  | none, some _ => false
  | none, none => appLeTenor a b

/-- ROI stage `(a.__roi ?? Infinity) - (b.__roi ?? Infinity)`: `??` is
nullish coalescing and NaN is not nullish, so a NaN ROI stays NaN, the
difference is NaN — falsy — and the comparison falls through to the
days stage whenever either ROI is NaN. -/
def appLeRoi (a b : AppDerived) : Bool :=
  match a.row.__roi, b.row.__roi with
  | some x, some y => if x ≠ y then decide (x < y) else appLeDays a b
  | _, _ => appLeDays a b

/-- The app.py comparator chain
`nearFlag || almPriority || roi || daysToAvail || effTenor`, as the
"sorts at or before" relation (comparator value at most 0). -/
def appLe (a b : AppDerived) : Bool :=
  if a.__nearFlag ≠ b.__nearFlag then decide (a.__nearFlag < b.__nearFlag)
  else if a.__almPriority ≠ b.__almPriority then decide (a.__almPriority < b.__almPriority)
  else appLeRoi a b

/-- Stable insertion: `x` goes before the first element it sorts at or
before.  Used to model the (stable) library sorts of both variants on
concrete inputs. -/
def insertLe {α : Type} (le : α → α → Bool) (x : α) : List α → List α
  | [] => [x]
  | y :: ys => if le x y then x :: y :: ys else y :: insertLe le x ys

/-- Stable sort by repeated insertion. -/
def stableSort {α : Type} (le : α → α → Bool) : List α → List α
  | [] => []
  | x :: xs => insertLe le x (stableSort le xs)

/-- app.py `sortRows`: derive every row, then sort by the comparator. -/
def sortRows (today nearWindowDays : ℤ) (almMap : String → ℚ) (rows : List AppRow) :
    List AppDerived :=
  stableSort appLe (rows.map (appDeriveRow today nearWindowDays almMap))

/-! ## The apptest.py ranked rows -/

/-- The cleaned per-row columns of apptest.py (`__date` already coerced,
numbers parsed, type normalized). -/
structure PyRow where
  __date : Option ℤ
  __roi : Option ℚ
  __amount : Option ℚ
  __type : TypeVal
  __tenor_days : Option ℚ
deriving DecidableEq

/-- An apptest.py row with its derived columns. -/
structure PyDerived where
  row : PyRow
  __days_to_avail : Option ℤ
  __effective_tenor_days : ℚ
  __near_flag : ℤ
  __alm_bucket : String
  __alm_mismatch : ℚ
  __alm_priority : ℚ
deriving DecidableEq

/-- The clean-and-derive block of apptest.py: `__days_to_avail` is the
whole-day difference to (normalized) `today`, NaN when the date is `NaT`;
then effective tenor, near flag, ALM bucket, mismatch and priority.
Caveat: in the source, `today` is timezone-aware (IST) while the coerced
dates are timezone-naive, so the subtraction on the real program raises a
`TypeError` instead of producing these columns — this definition models the
intended difference and is total where the source line is unreachable
past that error.  No theorem below asserts behavior of the program
through this stage. -/
def pyDeriveRow (today nearWindowDays : ℤ) (almWeight : ℚ) (almMap : String → ℚ)
    (r : PyRow) : PyDerived :=
  let days := r.__date.map (fun ms => Int.fdiv (ms - today) dayMs)
  let tenor := pyEffectiveTenorDays r.__type r.__tenor_days
  let bucket := tenor_to_alm_bucket_name (some tenor)
  { row := r
    __days_to_avail := days
    __effective_tenor_days := tenor
    __near_flag := pyNearFlag nearWindowDays days
    __alm_bucket := bucket
    __alm_mismatch := almMap bucket
    __alm_priority := -almWeight * almMap bucket }

/-- NaN-last comparison on an ascending float key (pandas
`na_position='last'`). -/
def naLastLtQ : Option ℚ → Option ℚ → Bool
  | some x, some y => decide (x < y)
  | some _, none => true
  | none, _ => false

/-- NaN-last comparison on an ascending integer-or-NaN key. -/
def naLastLtZ : Option ℤ → Option ℤ → Bool
  | some x, some y => decide (x < y)
  | some _, none => true
  | none, _ => false

/-- The apptest.py `df_sorted` sort key: lexicographic ascending on
near flag, ALM priority, ROI, days to availability, effective tenor, with
NaN sorting after all numeric values on every key. -/
def pySortLe (a b : PyDerived) : Bool :=
  if a.__near_flag ≠ b.__near_flag then decide (a.__near_flag < b.__near_flag)
  else if a.__alm_priority ≠ b.__alm_priority then decide (a.__alm_priority < b.__alm_priority)
  else if a.row.__roi ≠ b.row.__roi then naLastLtQ a.row.__roi b.row.__roi
  else if a.__days_to_avail ≠ b.__days_to_avail then naLastLtZ a.__days_to_avail b.__days_to_avail
  else decide (a.__effective_tenor_days ≤ b.__effective_tenor_days)

/-- apptest.py `df_sorted`: derive every row, then sort by the five-key
ascending order. -/
def pySortRows (today nearWindowDays : ℤ) (almWeight : ℚ) (almMap : String → ℚ)
    (rows : List PyRow) : List PyDerived :=
  stableSort pySortLe (rows.map (pyDeriveRow today nearWindowDays almWeight almMap))

/-! ## Column maps and pipelines -/

/-- Cell lookup through a possibly unresolved column: app.py reads
`r[null]`, which is `undefined` (blank); the apptest paths guard resolved
names first. -/
def getCell (r : RawRow) : Option String → Cell
  | some c => r c
  | none => Cell.blank

/-- The app.py column map (`colMap` state). -/
structure AppColMap where
  dateCol : Option String
  roiCol : Option String
  amountCol : Option String
  tenorCol : Option String
  typeCol : Option String

/-- app.py `onExcel` column inference. -/
def appInferColumns (cols : List String) : AppColMap :=
  { dateCol := pickCol cols DATE_COL_CANDIDATES
    roiCol := pickCol cols ROI_COL_CANDIDATES
    amountCol := pickCol cols AMOUNT_COL_CANDIDATES
    tenorCol := pickCol cols TENOR_COL_CANDIDATES
    typeCol := pickCol cols TYPE_COL_CANDIDATES }

/-- The app.py `processed` memo: an empty sheet gives an empty list;
otherwise every raw row is projected through the column map, coerced, and
the result is ranked by `sortRows`.  No column-resolution check happens on
this path: an unresolved required column just feeds `undefined` cells to
the coercions. -/
def processed (today nearWindowDays : ℤ) (almMap : String → ℚ) (colMap : AppColMap)
    (sheetRows : List RawRow) : List AppDerived :=
  if sheetRows.isEmpty then []
  else
    sortRows today nearWindowDays almMap
      (sheetRows.map (fun r =>
        { __date := getCell r colMap.dateCol
          __roi := coerceNumber (getCell r colMap.roiCol)
          __amount := coerceNumber (getCell r colMap.amountCol)
          __tenor_days := coerceNumber (getCell r colMap.tenorCol)
          __type := normaliseType (getCell r colMap.typeCol) }))

/-- The whole app.py run as a function of the UI state, `targetAmount`
included.  In the source, `processed` is a `useMemo` whose dependency list
is `[sheetRows, colMap, nearDays, almMap]`; the `targetAmount` state is
never read by it and app.py computes no packing plan, so the ranked table
does not depend on this argument. -/
def appPipeline (today nearWindowDays : ℤ) (almMap : String → ℚ) (colMap : AppColMap)
    (sheetRows : List RawRow) (targetAmount : ℚ) : List AppDerived :=
  processed today nearWindowDays almMap colMap sheetRows

/-- The apptest.py column map (`map_cols`). -/
structure PyColMap where
  date : Option String
  roi : Option String
  amount : Option String
  tenor : Option String
  type : Option String

/-- apptest.py column resolution. -/
def pyResolveColumns (cols : List String) : PyColMap :=
  { date := smart_pick_col cols DATE_COL_CANDIDATES
    roi := smart_pick_col cols ROI_COL_CANDIDATES
    amount := smart_pick_col cols AMOUNT_COL_CANDIDATES
    tenor := smart_pick_col cols TENOR_COL_CANDIDATES
    type := smart_pick_col cols TYPE_COL_CANDIDATES }

/-- apptest.py `missing`: the required roles, in dictionary order
date, roi, amount, whose column resolved to `None`. -/
def missingRoles (mc : PyColMap) : List String :=
  (if mc.date = none then ["date"] else []) ++
    (if mc.roi = none then ["roi"] else []) ++
      (if mc.amount = none then ["amount"] else [])

/-- The clean block of apptest.py applied to one raw row.  The optional
tenor and type columns are guarded by string truthiness
(`if map_cols['tenor']:`), so an unresolved — or empty-named — column
leaves NaN. -/
def pyCleanRow (mc : PyColMap) (r : RawRow) : PyRow :=
  { __date := coerce_date (getCell r mc.date)
    __roi := _to_number (getCell r mc.roi)
    __amount := _to_number (getCell r mc.amount)
    __type :=
      match mc.type with
      | some c => if c = "" then TypeVal.null else normalise_types (r c)
      | none => TypeVal.null
    __tenor_days :=
      match mc.tenor with
      | some c => if c = "" then none else _to_number (r c)
      | none => none }

/-- The apptest.py run from the detected columns to the ranked table:
resolve columns, halt with the missing required roles (`st.error` +
`st.stop()`) when any of date/roi/amount is unresolved, otherwise clean,
derive and rank.  The halt happens before any ranking work. -/
def pyPipeline (today nearWindowDays : ℤ) (almWeight : ℚ) (almMap : String → ℚ)
    (cols : List String) (rows : List RawRow) : Except (List String) (List PyDerived) :=
  let mc := pyResolveColumns cols
  if missingRoles mc ≠ [] then Except.error (missingRoles mc)
  else Except.ok (pySortRows today nearWindowDays almWeight almMap (rows.map (pyCleanRow mc)))

/-! ## The apptest.py packing planner -/

/-- One iteration of the packing loop: a NaN amount counts as 0; a row
with non-positive usable amount, or visited when nothing remains to pick,
is skipped (its Picked/Remaining cells stay NaN); otherwise the row yields
`take = min(amount, remaining)` and shows `max(0, remaining - take)`. -/
def pyPackRow (amtOpt : Option ℚ) (remaining : ℚ) : Option (ℚ × ℚ) × ℚ :=
  let amt := amtOpt.getD 0
  if amt ≤ 0 ∨ remaining ≤ 0 then (none, remaining)
  else
    let take := min amt remaining
    (some (take, max 0 (remaining - take)), remaining - take)

/-- The packing walk over the ranked amounts, threading the remaining
target. -/
def pyPackGo (remaining : ℚ) : List (Option ℚ) → List (Option (ℚ × ℚ))
  | [] => []
  | a :: rest =>
    let step := pyPackRow a remaining
    step.1 :: pyPackGo step.2 rest

/-- apptest.py's optional packing plan over the ranked rows' `__amount`
column: with a non-positive target the feature is off and every
Picked/Remaining cell stays NaN; otherwise the greedy walk runs. -/
def pyPack (targetAmount : ℚ) (amounts : List (Option ℚ)) : List (Option (ℚ × ℚ)) :=
  if 0 < targetAmount then pyPackGo targetAmount amounts
  else amounts.map (fun _ => none)

/-- Total picked over a plan. -/
def pickedSum (plan : List (Option (ℚ × ℚ))) : ℚ :=
  (plan.filterMap (fun p => p.map (fun t => t.1))).sum

/-- Total draw amount of the rows that appear in the plan (NaN amounts
read as 0, though a NaN-amount row never appears). -/
def plannedAmount (amounts : List (Option ℚ)) (plan : List (Option (ℚ × ℚ))) : ℚ :=
  ((amounts.zip plan).filterMap (fun ap =>
      match ap.2 with
      | some _ => some (ap.1.getD 0)
      | none => none)).sum

/-! ## Helper lemmas -/

/-- Python `int()` truncation agrees with the floor on non-negative
rationals. -/
lemma ratTrunc_eq_floor (q : ℚ) (h : 0 ≤ q) : ratTrunc q = ⌊q⌋ := by
  unfold ratTrunc
  rw [Int.tdiv_eq_ediv (Rat.num_nonneg.mpr h) (Int.natCast_nonneg q.den), Rat.floor_def]

/-- A rational strictly above 18250 truncates to at least 18250. -/
lemma ratTrunc_ge_18250 (q : ℚ) (h : 18250 < q) : 18250 ≤ ratTrunc q := by
  rw [ratTrunc_eq_floor q (by linarith)]
  exact Int.le_floor.mpr (by exact_mod_cast h.le)

/-! ## Claims -/

/-- C1: the claimed tenor-default law — `effectiveTenorDays = 90` whenever
the type is ST or the tenor is NaN, the parsed tenor otherwise — holds in
the apptest.py variant, but app.py uses a present finite tenor even for an
ST row: at the failing input (type ST, tenor 120), app.py derives 120 where
the claim requires 90. -/
theorem C1_effective_tenor_default :
    (∀ t : Option ℚ, pyEffectiveTenorDays TypeVal.st t = 90) ∧
    (∀ ty : TypeVal, pyEffectiveTenorDays ty none = 90) ∧
    pyEffectiveTenorDays TypeVal.lt (some 120) = 120 ∧
    appEffTenor (some 120) TypeVal.st = 120 ∧
    (120 : ℚ) ≠ 90 := by
  refine ⟨?_, ?_, rfl, rfl, by norm_num⟩
  · intro t
    cases t <;> simp [pyEffectiveTenorDays]
  · intro ty
    rfl

/-- C2: on two rows tied on near flag (both inside the window) and ALM
priority (all mismatches zero), where the first has a NaN rate and the
earlier availability and the second a numeric rate, app.py ranks the
NaN-rate row FIRST — where the claim requires the NaN-rate row to come
after every numeric-rate row: `(a.__roi ?? Infinity)` keeps NaN (NaN is
not nullish), the NaN difference is falsy, and the comparator falls
through to days-to-availability, which the NaN-rate row wins. -/
theorem C2_nan_rate_ordering :
    ((sortRows 0 10 (fun _ => 0)
          [{ __date := Cell.date 86400000, __roi := none, __amount := some 100,
             __tenor_days := some 90, __type := TypeVal.lt },
           { __date := Cell.date 172800000, __roi := some 5, __amount := some 100,
             __tenor_days := some 90, __type := TypeVal.lt }]).map
        (fun d => (d.row.__roi, d.__nearFlag, d.__almPriority)))
      = [(none, 0, 0), (some 5, 0, 0)] := by
  with_unfolding_all rfl

/-- C7: the nearness classification, in both variants: 0 exactly when the
days-to-availability is known and lies in `[0, window]`, 2 exactly when it
is known and negative, 1 in every other case — in particular an unknown
(null/unparseable) date is classified 1, never 0. -/
theorem C7_nearness_partition (W : ℤ) (d : Option ℤ) :
    (appNearFlag W d = 0 ↔ ∃ v, d = some v ∧ 0 ≤ v ∧ v ≤ W) ∧
    (appNearFlag W d = 2 ↔ ∃ v, d = some v ∧ v < 0) ∧
    (appNearFlag W d = 0 ∨ appNearFlag W d = 1 ∨ appNearFlag W d = 2) ∧
    appNearFlag W none = 1 ∧
    pyNearFlag W d = appNearFlag W d ∧
    pyNearFlag W none = 1 := by
  rcases d with _ | v <;>
    simp only [appNearFlag, pyNearFlag] <;>
    [skip; split_ifs with h1 h2] <;> simp_all

/-- C8: numeric coercion.  The apptest.py `_to_number` strips separators,
percent signs, the currency tokens and whitespace and parses the residue,
with blank or dash or non-numeric residue giving NaN — but the app.py
`coerceNumber` strips only commas, whitespace and percent signs, so a
currency-tagged cell gives NaN, and a cell whose strip leaves nothing
(for example whitespace only) coerces to 0 rather than NaN, since JS
`Number("")` is 0. -/
theorem C8_numeric_coercion_amended :
    _to_number (Cell.str "₹1,23,456") = some 123456 ∧
    _to_number (Cell.str " Rs 100 ") = some 100 ∧
    _to_number (Cell.str "INR 100") = some 100 ∧
    _to_number (Cell.str "12.5%") = some (25 / 2) ∧
    _to_number (Cell.str "") = none ∧
    _to_number (Cell.str "-") = none ∧
    _to_number (Cell.str "—") = none ∧
    _to_number (Cell.str "abc") = none ∧
    (∀ q : ℚ, _to_number (Cell.num q) = some q) ∧
    coerceNumber (Cell.str "1,234.5") = some (2469 / 2) ∧
    coerceNumber (Cell.str "12%") = some 12 ∧
    coerceNumber (Cell.str "") = none ∧
    coerceNumber (Cell.str "abc") = none ∧
    coerceNumber (Cell.str "INR 100") = none ∧
    coerceNumber (Cell.str " ") = some 0 := by
  refine ⟨?_, ?_, ?_, ?_, ?_, ?_, ?_, ?_, fun q => rfl, ?_, ?_, ?_, ?_, ?_, ?_⟩ <;>
    with_unfolding_all rfl

/-- C8 counterexample: the claim says coercion strips currency tokens such
as "INR", so the cell "INR 100" would coerce to 100; the app.py
`coerceNumber` leaves "INR" in place and yields NaN. -/
theorem C8_counterexample :
    coerceNumber (Cell.str "INR 100") = none ∧ (none : Option ℚ) ≠ some 100 := by
  exact ⟨by with_unfolding_all rfl, by simp⟩

/-- C9: date coercion.  Both variants pass existing date values through
and give null for blank or unparseable cells (never a default); on the
modelled `d/m/y` slash fragment the apptest.py parser is day-first and
tolerates surrounding free text, while app.py's `new Date(string)` is
month-first and rejects strings with surrounding noise. -/
theorem C9_date_coercion_amended :
    (∀ ms : ℤ, coerceDate (Cell.date ms) = some ms) ∧
    (∀ ms : ℤ, coerce_date (Cell.date ms) = some ms) ∧
    coerceDate Cell.blank = none ∧
    coerce_date Cell.blank = none ∧
    coerceDate (Cell.str "") = none ∧
    coerce_date (Cell.str "") = none ∧
    coerce_date (Cell.str "13/02/2024") = some (civilMs 2024 2 13) ∧
    coerce_date (Cell.str "02/03/2024") = some (civilMs 2024 3 2) ∧
    coerce_date (Cell.str "available on 13/02/2024 thanks") = some (civilMs 2024 2 13) ∧
    coerceDate (Cell.str "13/02/2024") = none ∧
    coerceDate (Cell.str "02/03/2024") = some (civilMs 2024 2 3) ∧
    coerceDate (Cell.str "available on 13/02/2024 thanks") = none := by
  refine ⟨fun ms => rfl, fun ms => rfl, rfl, rfl, ?_, ?_, ?_, ?_, ?_, ?_, ?_, ?_⟩ <;>
    with_unfolding_all rfl

/-- C9 counterexample: the claim says every string cell is parsed with
day-first preference, so "13/02/2024" would coerce to 13 February 2024 (as
apptest.py does); the app.py `coerceDate` reads it month-first, finds no
month 13, and yields null. -/
theorem C9_counterexample :
    coerceDate (Cell.str "13/02/2024") = none ∧
    coerce_date (Cell.str "13/02/2024") = some (civilMs 2024 2 13) ∧
    some (civilMs 2024 2 13) ≠ (none : Option ℤ) := by
  refine ⟨by with_unfolding_all rfl, by with_unfolding_all rfl, by simp⟩

/-- C10: the app.py ranked output is independent of the target amount —
`processed` depends only on the sheet rows, column map, near-window days
and ALM map, and app.py computes no packing plan, so two runs differing
only in `targetAmount` produce the identical ranked table. -/
theorem C10_target_independence (today nearWindowDays : ℤ) (almMap : String → ℚ)
    (colMap : AppColMap) (sheetRows : List RawRow) (t1 t2 : ℚ) :
    appPipeline today nearWindowDays almMap colMap sheetRows t1
      = appPipeline today nearWindowDays almMap colMap sheetRows t2 := rfl

/-- C3: the ALM priority score.  In the apptest.py variant the claimed law
holds: the score is `-(weight × mismatch)` with the signed user mismatch,
so with positive weight an outflow (positive) mismatch scores negative
(earlier) and an inflow (negative) mismatch scores positive (later).  In
the app.py variant there is no weight and the mismatch is clamped below at
0 (`Math.max(0, …)`), so the score is `-max(0, mismatch)`: an inflow
bucket scores exactly 0 instead of positive. -/
theorem C3_alm_priority_amended (w : ℚ) (m : String → ℚ) (t : ℚ) :
    pyAlmPriority w m t = -(w * m (tenor_to_alm_bucket_name (some t))) ∧
    (0 < w → m (tenor_to_alm_bucket_name (some t)) < 0 → 0 < pyAlmPriority w m t) ∧
    (0 < w → 0 < m (tenor_to_alm_bucket_name (some t)) → pyAlmPriority w m t < 0) ∧
    (0 ≤ appAlmLookup m (daysToBucket t) →
      appAlmPriority m (daysToBucket t) = -(appAlmLookup m (daysToBucket t))) ∧
    (appAlmLookup m (daysToBucket t) ≤ 0 → appAlmPriority m (daysToBucket t) = 0) := by
  refine ⟨by unfold pyAlmPriority pyAlmMismatch; ring, ?_, ?_, ?_, ?_⟩
  · intro hw hm
    unfold pyAlmPriority pyAlmMismatch
    nlinarith
  · intro hw hm
    unfold pyAlmPriority pyAlmMismatch
    nlinarith
  · intro h
    unfold appAlmPriority appAlmOutflow
    rw [max_eq_right h]
  · intro h
    unfold appAlmPriority appAlmOutflow
    rw [max_eq_left h, neg_zero]

/-- C3 witness: weight 3, a map putting mismatch −100 on the 61–180-day
bucket, tenor 90 (whose bucket that is): the apptest.py score is positive. -/
theorem C3_alm_priority_amended_witness :
    0 < pyAlmPriority 3
        (fun l => if l = "Over 2 Months & upto 6 Months" then (-100 : ℚ) else 0) 90 :=
  (C3_alm_priority_amended 3
      (fun l => if l = "Over 2 Months & upto 6 Months" then (-100 : ℚ) else 0) 90).2.1
    (by norm_num)
    (by
      have hb : tenor_to_alm_bucket_name (some 90) = "Over 2 Months & upto 6 Months" := by
        with_unfolding_all rfl
      rw [hb]
      norm_num)

/-- C3 counterexample: the claim says a negative (inflow) mismatch on the
row's bucket yields a positive score; in app.py a row with tenor 90 days
whose bucket carries mismatch −100 scores 0, not a positive value. -/
theorem C3_counterexample :
    appAlmPriority (fun l => if l = "Over 2 Months & upto 6 Months" then (-100 : ℚ) else 0)
        (daysToBucket (appEffTenor (some 90) TypeVal.st)) = 0 ∧
    ¬ 0 < appAlmPriority
        (fun l => if l = "Over 2 Months & upto 6 Months" then (-100 : ℚ) else 0)
        (daysToBucket (appEffTenor (some 90) TypeVal.st)) := by
  have h : appAlmPriority
      (fun l => if l = "Over 2 Months & upto 6 Months" then (-100 : ℚ) else 0)
      (daysToBucket (appEffTenor (some 90) TypeVal.st)) = 0 := by
    with_unfolding_all rfl
  exact ⟨h, by rw [h]; norm_num⟩

/-- C4: a tenor beyond the last bucket's 18250-day upper bound.  In the
app.py variant the claim's behavior holds: `daysToBucket` yields null, the
mismatch read is 0 and the ALM score is 0.  In the apptest.py variant such
a tenor is instead clamped to the last bucket's name and inherits that
bucket's mismatch. -/
theorem C4_overlong_tenor_amended (t : ℚ) (m : String → ℚ) (h : 18250 < t) :
    daysToBucket t = none ∧
    appAlmLookup m (daysToBucket t) = 0 ∧
    appAlmPriority m (daysToBucket t) = 0 ∧
    tenor_to_alm_bucket_name (some t) = "Over 30 Years & upto 50 Years" := by
  have hb : daysToBucket t = none := by
    unfold daysToBucket
    rw [Option.map_eq_none']
    apply List.find?_eq_none.mpr
    intro b hb
    fin_cases hb <;>
      · simp only [Bool.and_eq_true, decide_eq_true_eq, not_and]
        intro _ hc
        push_cast at hc
        linarith
  have hd : 18250 ≤ ratTrunc t := ratTrunc_ge_18250 t h
  refine ⟨hb, by rw [hb]; rfl, by rw [hb]; unfold appAlmPriority appAlmOutflow; simp [appAlmLookup], ?_⟩
  unfold tenor_to_alm_bucket_name
  rcases le_or_lt (ratTrunc t) 18250 with hle | hgt
  · have he : ratTrunc t = 18250 := le_antisymm hle hd
    simp only [he]
    with_unfolding_all rfl
  · have hn : ALM_BUCKETS.find?
        (fun b => decide (b.2.1 ≤ ratTrunc t) && decide (ratTrunc t ≤ b.2.2)) = none := by
      apply List.find?_eq_none.mpr
      intro b hbm
      fin_cases hbm <;>
        · simp only [Bool.and_eq_true, decide_eq_true_eq, not_and]
          intro _
          omega
    simp only [hn]
    rfl

/-- C4 witness: tenor 20000 days with a constant-7 mismatch table. -/
theorem C4_overlong_tenor_amended_witness :
    daysToBucket (20000 : ℚ) = none ∧
    appAlmLookup (fun _ => (7 : ℚ)) (daysToBucket (20000 : ℚ)) = 0 ∧
    appAlmPriority (fun _ => (7 : ℚ)) (daysToBucket (20000 : ℚ)) = 0 ∧
    tenor_to_alm_bucket_name (some (20000 : ℚ)) = "Over 30 Years & upto 50 Years" :=
  C4_overlong_tenor_amended 20000 (fun _ => (7 : ℚ)) (by norm_num)

/-- C4 counterexample: the claim says a row with tenor beyond 18250 days
contributes mismatch 0 and inherits no bucket's value; in apptest.py a
tenor of 20000 days is clamped to the "Over 30 Years & upto 50 Years"
bucket and inherits its mismatch (here 500 ≠ 0). -/
theorem C4_counterexample :
    pyAlmMismatch
        (fun l => if l = "Over 30 Years & upto 50 Years" then (500 : ℚ) else 0) 20000
      = 500 ∧
    (500 : ℚ) ≠ 0 := by
  exact ⟨by with_unfolding_all rfl, by norm_num⟩

/-- C5: in the apptest.py variant, an unresolved required role halts the
pipeline before ranking with exactly the missing required roles reported:
the run is the error value, "date"/"roi"/"amount" appear in the report
precisely when their column is unresolved, and nothing else appears. -/
theorem C5_missing_roles_amended (today nearWindowDays : ℤ) (almWeight : ℚ)
    (almMap : String → ℚ) (cols : List String) (rows : List RawRow)
    (h : missingRoles (pyResolveColumns cols) ≠ []) :
    pyPipeline today nearWindowDays almWeight almMap cols rows
      = Except.error (missingRoles (pyResolveColumns cols)) ∧
    ("date" ∈ missingRoles (pyResolveColumns cols) ↔ (pyResolveColumns cols).date = none) ∧
    ("roi" ∈ missingRoles (pyResolveColumns cols) ↔ (pyResolveColumns cols).roi = none) ∧
    ("amount" ∈ missingRoles (pyResolveColumns cols) ↔ (pyResolveColumns cols).amount = none) ∧
    ∀ k ∈ missingRoles (pyResolveColumns cols), k = "date" ∨ k = "roi" ∨ k = "amount" := by
  refine ⟨?_, ?_, ?_, ?_, ?_⟩
  · simp only [pyPipeline]
    rw [if_pos h]
  all_goals
    unfold missingRoles
    split_ifs <;> simp_all

/-- C5 witness: a table whose only column is "Foo" resolves none of the
required roles; the pipeline errors out listing all three. -/
theorem C5_missing_roles_amended_witness :
    pyPipeline 0 10 3 (fun _ => 0) ["Foo"] []
      = Except.error (missingRoles (pyResolveColumns ["Foo"])) ∧
    ("date" ∈ missingRoles (pyResolveColumns ["Foo"]) ↔ (pyResolveColumns ["Foo"]).date = none) ∧
    ("roi" ∈ missingRoles (pyResolveColumns ["Foo"]) ↔ (pyResolveColumns ["Foo"]).roi = none) ∧
    ("amount" ∈ missingRoles (pyResolveColumns ["Foo"]) ↔ (pyResolveColumns ["Foo"]).amount = none) ∧
    ∀ k ∈ missingRoles (pyResolveColumns ["Foo"]), k = "date" ∨ k = "roi" ∨ k = "amount" :=
  C5_missing_roles_amended 0 10 3 (fun _ => 0) ["Foo"] []
    (by with_unfolding_all decide)

/-- C5 counterexample: the claim says the pipeline halts and produces no
ranked output whenever a required role is unresolved; the app.py
`processed` memo performs no such check — with the single column "Foo"
(which resolves none of date/rate/amount) it still emits a one-row ranked
table. -/
theorem C5_counterexample :
    (appInferColumns ["Foo"]).dateCol = none ∧
    (appInferColumns ["Foo"]).roiCol = none ∧
    (appInferColumns ["Foo"]).amountCol = none ∧
    (processed 0 10 (fun _ => 0) (appInferColumns ["Foo"])
        [fun _ => Cell.str "x"]).length = 1 := by
  refine ⟨?_, ?_, ?_, ?_⟩ <;> with_unfolding_all rfl

/-! Helper lemmas for the packing planner (C6). -/

/-- Picked sum over an empty plan. -/
lemma pickedSum_nil : pickedSum [] = 0 := rfl

/-- A skipped row adds nothing to the picked sum. -/
lemma pickedSum_cons_none (P : List (Option (ℚ × ℚ))) :
    pickedSum (none :: P) = pickedSum P := by
  simp [pickedSum, List.filterMap_cons]

/-- A picked row adds its take to the picked sum. -/
lemma pickedSum_cons_some (x y : ℚ) (P : List (Option (ℚ × ℚ))) :
    pickedSum (some (x, y) :: P) = x + pickedSum P := by
  simp [pickedSum, List.filterMap_cons]

/-- Planned amount over an empty amount list. -/
lemma plannedAmount_nil (P : List (Option (ℚ × ℚ))) : plannedAmount [] P = 0 := by
  simp [plannedAmount]

/-- A skipped row contributes no planned amount. -/
lemma plannedAmount_cons_none (a : Option ℚ) (as : List (Option ℚ))
    (P : List (Option (ℚ × ℚ))) :
    plannedAmount (a :: as) (none :: P) = plannedAmount as P := by
  simp [plannedAmount, List.zip_cons_cons, List.filterMap_cons]

/-- A picked row contributes its draw amount to the planned amount. -/
lemma plannedAmount_cons_some (a : Option ℚ) (x y : ℚ) (as : List (Option ℚ))
    (P : List (Option (ℚ × ℚ))) :
    plannedAmount (a :: as) (some (x, y) :: P) = a.getD 0 + plannedAmount as P := by
  simp [plannedAmount, List.zip_cons_cons, List.filterMap_cons]

/-- An all-skipped plan picks nothing. -/
lemma pickedSum_map_none (as : List (Option ℚ)) :
    pickedSum (as.map (fun _ => none)) = 0 := by
  induction as with
  | nil => rfl
  | cons a as ih => simpa [pickedSum_cons_none] using ih

/-- An all-skipped plan plans nothing. -/
lemma plannedAmount_map_none (as : List (Option ℚ)) :
    plannedAmount as (as.map (fun _ => none)) = 0 := by
  induction as with
  | nil => simp [plannedAmount]
  | cons a as ih => simpa [plannedAmount_cons_none] using ih

/-- Once nothing remains to pick, every later row is skipped. -/
lemma pyPackGo_nonpos (as : List (Option ℚ)) : ∀ r : ℚ, r ≤ 0 →
    pyPackGo r as = as.map (fun _ => none) := by
  induction as with
  | nil => intro r _; rfl
  | cons a as ih =>
    intro r hr
    have hstep : pyPackRow a r = (none, r) := by
      unfold pyPackRow
      rw [if_pos (Or.inr hr)]
    simp [pyPackGo, hstep, ih r hr]

/-- Packing conservation for the walk: with a positive remaining target,
the total picked equals the minimum of that target and the draw amounts of
the rows appearing in the plan. -/
lemma pyPackGo_conservation (as : List (Option ℚ)) : ∀ r : ℚ, 0 < r →
    pickedSum (pyPackGo r as) = min r (plannedAmount as (pyPackGo r as)) := by
  induction as with
  | nil =>
    intro r hr
    show pickedSum [] = min r (plannedAmount [] [])
    rw [pickedSum_nil, plannedAmount_nil, min_eq_right hr.le]
  | cons a as ih =>
    intro r hr
    by_cases ha : a.getD 0 ≤ 0
    · have hstep : pyPackRow a r = (none, r) := by
        unfold pyPackRow
        rw [if_pos (Or.inl ha)]
      simp only [pyPackGo, hstep]
      rw [pickedSum_cons_none, plannedAmount_cons_none]
      exact ih r hr
    · push_neg at ha
      have hstep : pyPackRow a r
          = (some (min (a.getD 0) r, max 0 (r - min (a.getD 0) r)),
             r - min (a.getD 0) r) := by
        unfold pyPackRow
        rw [if_neg (by push_neg; exact ⟨ha, hr⟩)]
      rcases lt_or_le (a.getD 0) r with hlt | hge
      · have hmin : min (a.getD 0) r = a.getD 0 := min_eq_left hlt.le
        have hr' : 0 < r - a.getD 0 := by linarith
        simp only [pyPackGo, hstep, hmin]
        rw [pickedSum_cons_some, plannedAmount_cons_some, ih (r - a.getD 0) hr']
        rcases le_total (plannedAmount as (pyPackGo (r - a.getD 0) as)) (r - a.getD 0)
          with hS | hS
        · rw [min_eq_right hS, min_eq_right (by linarith)]
        · rw [min_eq_left hS, min_eq_left (by linarith)]
          ring
      · have hmin : min (a.getD 0) r = r := min_eq_right hge
        simp only [pyPackGo, hstep, hmin, sub_self]
        rw [pyPackGo_nonpos as 0 le_rfl, pickedSum_cons_some, plannedAmount_cons_some,
          pickedSum_map_none, plannedAmount_map_none, add_zero, add_zero,
          min_eq_left hge]

/-- Every row appearing in the plan was usable — its draw amount parsed to
a positive number — and its take is positive and at most that amount. -/
lemma pyPackGo_entries (as : List (Option ℚ)) : ∀ r : ℚ,
    List.Forall₂ (fun (a : Option ℚ) (p : Option (ℚ × ℚ)) =>
        ∀ x y, p = some (x, y) → ∃ q, a = some q ∧ 0 < q ∧ 0 < x ∧ x ≤ q)
      as (pyPackGo r as) := by
  induction as with
  | nil => intro r; exact List.Forall₂.nil
  | cons a as ih =>
    intro r
    by_cases hc : a.getD 0 ≤ 0 ∨ r ≤ 0
    · have hstep : pyPackRow a r = (none, r) := by
        unfold pyPackRow
        rw [if_pos hc]
      simp only [pyPackGo, hstep]
      exact List.Forall₂.cons (fun x y h => Option.noConfusion h) (ih r)
    · push_neg at hc
      obtain ⟨ha, hr⟩ := hc
      have hstep : pyPackRow a r
          = (some (min (a.getD 0) r, max 0 (r - min (a.getD 0) r)),
             r - min (a.getD 0) r) := by
        unfold pyPackRow
        rw [if_neg (by push_neg; exact ⟨ha, hr⟩)]
      simp only [pyPackGo, hstep]
      refine List.Forall₂.cons ?_ (ih _)
      intro x y hxy
      rcases a with _ | q
      · simp at ha
      · refine ⟨q, rfl, by simpa using ha, ?_, ?_⟩
        · have hx : x = min (q : ℚ) r := by
            simpa using congrArg (fun p => (Option.getD p (0, 0)).1) hxy.symm
          rw [hx]
          exact lt_min (by simpa using ha) hr
        · have hx : x = min (q : ℚ) r := by
            simpa using congrArg (fun p => (Option.getD p (0, 0)).1) hxy.symm
          rw [hx]
          exact min_le_left _ _

/-- An all-skipped plan satisfies the per-row soundness property
vacuously. -/
lemma forall₂_map_none (as : List (Option ℚ)) :
    List.Forall₂ (fun (a : Option ℚ) (p : Option (ℚ × ℚ)) =>
        ∀ x y, p = some (x, y) → ∃ q, a = some q ∧ 0 < q ∧ 0 < x ∧ x ≤ q)
      as (as.map (fun _ => none)) := by
  induction as with
  | nil => exact List.Forall₂.nil
  | cons a as ih => exact List.Forall₂.cons (fun x y h => Option.noConfusion h) ih

/-- C6: the greedy packing plan.  A non-positive target produces no plan
(every Picked cell stays NaN).  With a positive target, the total picked
equals the minimum of the target and the total draw amount of the rows
appearing in the plan, and never exceeds the target; and the plan is
positionally aligned with the ranked rows, each planned row having a
positive parsed draw amount with a positive take of at most that amount
(rows with NaN or non-positive amounts are skipped). -/
theorem C6_packing (targetAmount : ℚ) (amounts : List (Option ℚ)) :
    (targetAmount ≤ 0 → ∀ p ∈ pyPack targetAmount amounts, p = none) ∧
    (0 < targetAmount →
      pickedSum (pyPack targetAmount amounts)
          = min targetAmount (plannedAmount amounts (pyPack targetAmount amounts)) ∧
        pickedSum (pyPack targetAmount amounts) ≤ targetAmount) ∧
    List.Forall₂ (fun (a : Option ℚ) (p : Option (ℚ × ℚ)) =>
        ∀ x y, p = some (x, y) → ∃ q, a = some q ∧ 0 < q ∧ 0 < x ∧ x ≤ q)
      amounts (pyPack targetAmount amounts) := by
  refine ⟨?_, ?_, ?_⟩
  · intro ht p hp
    unfold pyPack at hp
    rw [if_neg (not_lt.mpr ht)] at hp
    obtain ⟨_, _, hfp⟩ := List.mem_map.mp hp
    exact hfp.symm
  · intro ht
    have hc := pyPackGo_conservation amounts targetAmount ht
    unfold pyPack
    rw [if_pos ht]
    exact ⟨hc, le_trans (le_of_eq hc) (min_le_left _ _)⟩
  · unfold pyPack
    split_ifs with ht
    · exact pyPackGo_entries amounts targetAmount
    · exact forall₂_map_none amounts

/-- C6 witness: Scenario D — target 150 against ranked amounts
[100, 80, 50]: the conservation equation holds with the total picked not
exceeding 150. -/
theorem C6_packing_witness :
    pickedSum (pyPack 150 [some 100, some 80, some 50])
        = min 150
            (plannedAmount [some 100, some 80, some 50]
              (pyPack 150 [some 100, some 80, some 50])) ∧
      pickedSum (pyPack 150 [some 100, some 80, some 50]) ≤ 150 :=
  (C6_packing 150 [some 100, some 80, some 50]).2.1 (by norm_num)

end BorrowingOptimizer
